import Mathlib

/-!
Shallow embedding of `src/main.py` (a Flask gateway that proxies song
searches to the Spotify Web API via spotipy) and proofs about its
`/search` handler and startup behaviour.

Upstream JSON payloads are modelled as records of `Option` fields, one
`Option` per dictionary key that the code reads with `.get`, so that the
embedding reproduces the code's handling of absent keys exactly.
Python exceptions that the handler can raise locally (the `IndexError`
from `[... ][0]` on an empty list) are modelled with `Except`.
-/

namespace SpApi

/-- One element of an album's `images` array; the code reads its `url` key. -/
structure ImageIn where
  url : Option String
  deriving Repr, DecidableEq

/-- One element of a track's `artists` array; the code reads its `name` key. -/
structure ArtistIn where
  name : Option String
  deriving Repr, DecidableEq

/-- A track's `album` object; the code reads its `name` and `images` keys. -/
structure AlbumIn where
  name : Option String
  images : Option (List ImageIn)
  deriving Repr, DecidableEq

/-- A track's `external_urls` object; the code reads its `spotify` key. -/
structure ExternalUrlsIn where
  spotify : Option String
  deriving Repr, DecidableEq

/-- An upstream track item, with exactly the keys `search_song` reads. -/
structure TrackIn where
  name : Option String
  artists : Option (List ArtistIn)
  album : Option AlbumIn
  uri : Option String
  external_urls : Option ExternalUrlsIn
  deriving Repr, DecidableEq

/-- The upstream `tracks` object; the code reads its `items` key. -/
structure TracksObjIn where
  items : Option (List TrackIn)
  deriving Repr, DecidableEq

/-- The whole upstream search response; the code reads its `tracks` key. -/
structure SearchResultsIn where
  tracks : Option TracksObjIn
  deriving Repr, DecidableEq

/-- One formatted track of the local response, mirroring the dict built at
lines 74-81 of `main.py`.  `artists` is a list of `Option String` because
the comprehension `[artist.get('name') for artist in ...]` keeps a `None`
per artist dict that lacks a `name` key. -/
structure TrackOut where
  name : Option String
  artists : List (Option String)
  album : Option String
  uri : Option String
  external_urls : Option String
  cover_image : Option String
  deriving Repr, DecidableEq

/-- The JSON body of a `/search` response: exactly one of a `tracks` array,
a `message` string, or an `error` string. -/
inductive Body where
  | tracks (ts : List TrackOut)
  | message (m : String)
  | error (e : String)
  deriving Repr, DecidableEq

/-- An HTTP response: status code plus JSON body. -/
structure Response where
  status : Nat
  body : Body
  deriving Repr, DecidableEq

/-- The Python exceptions the handler itself can raise while formatting
(the `[... ][0]` subscript on an empty list raises `IndexError`). -/
inductive PyExc where
  | indexError (msg : String)
  deriving Repr, DecidableEq

/-- `str(e)` for a modelled Python exception. -/
def PyExc.str : PyExc → String
  | .indexError m => m

/-- The empty dict `{}` used as default for `track.get('album', {})`. -/
def emptyAlbum : AlbumIn := { name := none, images := none }

/-- The empty dict `{}` appearing in the default list `[{}]` of
`.get('images', [{}])`. -/
def emptyImage : ImageIn := { url := none }

/-- The empty dict `{}` used as default for `track.get('external_urls', {})`. -/
def emptyExternalUrls : ExternalUrlsIn := { spotify := none }

/-- The empty dict `{}` used as default for `results.get('tracks', {})`. -/
def emptyTracksObj : TracksObjIn := { items := none }

/-- Line 80: `track.get('album', {}).get('images', [{}])[0].get('url')`.
The default `[{}]` is used only when the `images` key is absent; a present
but empty list reaches the `[0]` subscript, which raises `IndexError`. -/
def coverImage (t : TrackIn) : Except PyExc (Option String) :=
  match ((t.album.getD emptyAlbum).images).getD [emptyImage] with
  | [] => .error (.indexError "list index out of range")
  | img :: _ => .ok img.url

/-- The dict built for one track at lines 74-81 of `main.py`. -/
def formatTrack (t : TrackIn) : Except PyExc TrackOut :=
  match coverImage t with
  | .error e => .error e
  | .ok cover =>
      .ok { name := t.name
            artists := (t.artists.getD []).map (fun a => a.name)
            album := (t.album.getD emptyAlbum).name
            uri := t.uri
            external_urls := (t.external_urls.getD emptyExternalUrls).spotify
            cover_image := cover }

/-- The `for track in items: formatted_tracks.append(...)` loop of lines
72-81: the accumulator grows by appending at the end, and a raised
exception aborts the loop (and the surrounding `try`). -/
def formatLoop (items : List TrackIn) (acc : List TrackOut) :
    Except PyExc (List TrackOut) :=
  match items with
  | [] => .ok acc
  | t :: ts =>
      match formatTrack t with
      | .error e => .error e
      | .ok ft => formatLoop ts (acc ++ [ft])

/-- Line 68: `results.get('tracks', {}).get('items', [])`. -/
def getItems (r : SearchResultsIn) : List TrackIn :=
  ((r.tracks.getD emptyTracksObj).items).getD []

/-- Outcome of the `sp.search(...)` call at line 67: either the upstream
response, or a raised `spotipy.exceptions.SpotifyException`, or any other
raised exception, each carrying its `str(e)` message. -/
inductive Upstream where
  | ok (r : SearchResultsIn)
  | spotifyExc (m : String)
  | otherExc (m : String)
  deriving Repr, DecidableEq

/-- Process-wide server state: the global catalog-client handle `sp`.
`none` mirrors Python's `None`; the client object itself is opaque. -/
structure ServerState where
  sp : Option Unit
  deriving Repr, DecidableEq

/-- What one `/search` request produces: the HTTP response, the optional
`app.logger.error` line, and the server state after the request. -/
structure ReqResult where
  resp : Response
  log : Option String
  stAfter : ServerState
  deriving Repr, DecidableEq

/-- The `/search` handler `search_song` of lines 50-92.  `song_name` is
`request.args.get('song_name')` (`none` when the query parameter is
absent); `up` is the outcome of the `sp.search` call, consulted only when
the code reaches line 67.  Python truthiness: `not sp` is `sp is None`,
`not song_name` holds for `None` and for `""`, `if items:` tests
non-emptiness. -/
def search_song (st : ServerState) (song_name : Option String)
    (up : Upstream) : ReqResult :=
  match st.sp with
  | none =>
      { resp := { status := 500,
                  body := .error "Spotipy not initialized. Check credentials." },
        log := none, stAfter := st }
  | some _ =>
      if song_name.getD "" = "" then
        { resp := { status := 400,
                    body := .error "Missing 'song_name' query parameter" },
          log := none, stAfter := st }
      else
        match up with
        | .spotifyExc m =>
            { resp := { status := 500,
                        body := .error ("Spotify API error: " ++ m) },
              log := none, stAfter := st }
        | .otherExc m =>
            { resp := { status := 500,
                        body := .error ("An unexpected error occurred: " ++ m) },
              log := some ("An unexpected error occurred: " ++ m),
              stAfter := st }
        | .ok r =>
            if (getItems r).isEmpty then
              { resp := { status := 200,
                          body := .message ("No tracks found matching '"
                                    ++ song_name.getD "" ++ "'.") },
                log := none, stAfter := st }
            else
              match formatLoop (getItems r) [] with
              | .ok fts =>
                  { resp := { status := 200, body := .tracks fts },
                    log := none, stAfter := st }
              | .error e =>
                  { resp := { status := 500,
                              body := .error ("An unexpected error occurred: "
                                        ++ e.str) },
                    log := some ("An unexpected error occurred: " ++ e.str),
                    stAfter := st }

/-- A process environment: variable name to optional value. -/
def Env : Type := String → Option String

/-- Lines 23-24 of `main.py`: `CLIENT_ID = ''` and `CLIENT_SECRET = ''`.
The environment is a parameter of the embedding of module initialisation,
but these assignments are string literals and do not consult it. -/
def credentials (_env : Env) : String × String := ("", "")

/-- Outcome of the `SpotifyClientCredentials` / `spotipy.Spotify`
construction attempted at lines 36-37 when the credential check passes. -/
inductive InitOutcome where
  | ok
  | raised (m : String)
  deriving Repr, DecidableEq

/-- Module initialisation, lines 23-41: bind the credential literals, then
`if not CLIENT_ID or not CLIENT_SECRET` leave `sp = None`, else try to
build the client, leaving `sp = None` if construction raises. -/
def startup (env : Env) (attempt : InitOutcome) : ServerState :=
  if (credentials env).1 = "" ∨ (credentials env).2 = "" then
    { sp := none }
  else
    match attempt with
    | .ok => { sp := some () }
    | .raised _ => { sp := none }

/-! ## Helper lemmas -/

/-- The straightforward structural recursion the append-loop computes:
first formatting failure, or the list of formatted tracks in order. -/
def formatAll : List TrackIn → Except PyExc (List TrackOut)
  | [] => .ok []
  | t :: ts =>
      match formatTrack t with
      | .error e => .error e
      | .ok ft =>
          match formatAll ts with
          | .error e => .error e
          | .ok fts => .ok (ft :: fts)

theorem formatLoop_eq_formatAll (items : List TrackIn) (acc : List TrackOut) :
    formatLoop items acc = (formatAll items).map (fun fts => acc ++ fts) := by
  induction items generalizing acc with
  | nil => simp [formatLoop, formatAll, Except.map]
  | cons t ts ih =>
      simp only [formatLoop, formatAll]
      cases formatTrack t with
      | error e => rfl
      | ok ft =>
          dsimp only
          rw [ih]
          cases formatAll ts with
          | error e => rfl
          | ok fts => simp [Except.map]

theorem formatAll_ok_length {items : List TrackIn} {fts : List TrackOut}
    (h : formatAll items = .ok fts) : fts.length = items.length := by
  induction items generalizing fts with
  | nil =>
      simp only [formatAll] at h
      cases h
      rfl
  | cons t ts ih =>
      simp only [formatAll] at h
      cases hft : formatTrack t with
      | error e => rw [hft] at h; cases h
      | ok ft =>
          rw [hft] at h
          cases hts : formatAll ts with
          | error e => rw [hts] at h; cases h
          | ok rest =>
              rw [hts] at h
              cases h
              simp [ih hts]

theorem formatAll_ok_get {items : List TrackIn} {fts : List TrackOut}
    (h : formatAll items = .ok fts) (i : Nat) :
    fts[i]? = (items[i]?).bind (fun t => (formatTrack t).toOption) := by
  induction items generalizing fts i with
  | nil =>
      simp only [formatAll] at h
      cases h
      simp
  | cons t ts ih =>
      simp only [formatAll] at h
      cases hft : formatTrack t with
      | error e => rw [hft] at h; cases h
      | ok ft =>
          rw [hft] at h
          cases hts : formatAll ts with
          | error e => rw [hts] at h; cases h
          | ok rest =>
              rw [hts] at h
              cases h
              cases i with
              | zero => simp [hft, Except.toOption]
              | succ n => simpa using ih hts n

theorem search_song_stAfter (st : ServerState) (q : Option String)
    (u : Upstream) : (search_song st q u).stAfter = st := by
  obtain ⟨sp⟩ := st
  cases sp with
  | none => rfl
  | some x =>
      by_cases h : q.getD "" = ""
      · simp [search_song, h]
      · cases u with
        | spotifyExc m => simp [search_song, h]
        | otherExc m => simp [search_song, h]
        | ok r =>
            by_cases hi : (getItems r).isEmpty
            · simp [search_song, h, hi]
            · cases hf : formatLoop (getItems r) [] with
              | ok fts => simp [search_song, h, hi, hf]
              | error e => simp [search_song, h, hi, hf]

/-! ## Claim theorems -/

/-- C1: fails on the code.  For an upstream track whose album `images`
list is present but empty, line 80's `[0]` subscript raises `IndexError`,
so the request does not complete successfully with a null `cover_image`:
it returns status 500 with the unexpected-error body (and logs the error),
contrary to the claim. -/
theorem C1_empty_images_request_fails :
    search_song { sp := some () } (some "Bohemian Rhapsody")
      (.ok { tracks := some { items := some [
        { name := some "Song", artists := some [{ name := some "Queen" }],
          album := some { name := some "Album", images := some [] },
          uri := some "spotify:track:abc",
          external_urls := some { spotify := some "https://x" } }] } }) =
    { resp := { status := 500,
                body := .error "An unexpected error occurred: list index out of range" },
      log := some "An unexpected error occurred: list index out of range",
      stAfter := { sp := some () } } := rfl

/-- C2 counterexample: a request with `song_name` absent while the catalog
client is uninitialized returns status 500 (the not-initialized error),
not 400, because line 57's `sp` check precedes line 62's parameter check —
refuting "regardless of the catalog client's initialization state". -/
theorem C2_counterexample :
    (search_song { sp := none } none (.ok { tracks := none })).resp =
      { status := 500,
        body := .error "Spotipy not initialized. Check credentials." } ∧
    (search_song { sp := none } none (.ok { tracks := none })).resp.status ≠ 400 :=
  ⟨rfl, by decide⟩

/-- C2 amended: when the catalog client is initialized, every `/search`
request whose `song_name` is missing or empty returns status 400 with
the missing-parameter error body. -/
theorem C2_missing_param_400 (st : ServerState) (q : Option String)
    (up : Upstream) (hsp : st.sp ≠ none) (hq : q = none ∨ q = some "") :
    (search_song st q up).resp =
      { status := 400, body := .error "Missing 'song_name' query parameter" } := by
  obtain ⟨sp⟩ := st
  cases sp with
  | none => exact absurd rfl hsp
  | some u => rcases hq with h | h <;> subst h <;> rfl

/-- Witness for C2_missing_param_400 at a concrete initialized state and
empty query parameter. -/
theorem C2_missing_param_400_witness :
    ({ sp := some () } : ServerState).sp ≠ none ∧
    (search_song { sp := some () } (some "") (.ok { tracks := none })).resp =
      { status := 400, body := .error "Missing 'song_name' query parameter" } :=
  ⟨by decide,
   C2_missing_param_400 { sp := some () } (some "") (.ok { tracks := none })
     (by decide) (Or.inr rfl)⟩

/-- C3: fails on the code.  Lines 23-24 bind the credential values to
empty string literals; even in an environment that supplies both
`SPOTIPY_CLIENT_ID` and `SPOTIPY_CLIENT_SECRET`, the values the process
uses are `("", "")` — the environment is never consulted, contradicting
the claim (and the code's own comments at lines 16-21). -/
theorem C3_credentials_ignore_env :
    credentials (fun k =>
      if k = "SPOTIPY_CLIENT_ID" then some "real-client-id"
      else if k = "SPOTIPY_CLIENT_SECRET" then some "real-client-secret"
      else none) = ("", "") := rfl

/-- C4: in this source variant both credential literals are empty, so for
every environment and every outcome of the client-construction attempt,
startup leaves `sp = None`, and consequently every `/search` request
returns the 500 not-initialized error. -/
theorem C4_sp_none_search_500 (env : Env) (attempt : InitOutcome)
    (q : Option String) (up : Upstream) :
    (startup env attempt).sp = none ∧
    (search_song (startup env attempt) q up).resp =
      { status := 500,
        body := .error "Spotipy not initialized. Check credentials." } :=
  ⟨rfl, rfl⟩

/-- C5: whenever the catalog client is uninitialized (`sp = None`), every
`/search` request — for any query value and any would-be upstream
outcome — returns exactly the 500 not-initialized response, with no log
line and no state change. -/
theorem C5_uninitialized_always_500 (st : ServerState) (q : Option String)
    (up : Upstream) (h : st.sp = none) :
    search_song st q up =
      { resp := { status := 500,
                  body := .error "Spotipy not initialized. Check credentials." },
        log := none, stAfter := st } := by
  obtain ⟨sp⟩ := st
  cases sp with
  | none => rfl
  | some u => cases h

/-- Witness for C5_uninitialized_always_500 at a concrete uninitialized
state and query. -/
theorem C5_uninitialized_always_500_witness :
    ({ sp := none } : ServerState).sp = none ∧
    search_song { sp := none } (some "abba") (.spotifyExc "boom") =
      { resp := { status := 500,
                  body := .error "Spotipy not initialized. Check credentials." },
        log := none, stAfter := { sp := none } } :=
  ⟨rfl, C5_uninitialized_always_500 { sp := none } (some "abba")
          (.spotifyExc "boom") rfl⟩

/-- C6: fails on the code.  With an initialized client, a valid non-empty
`song_name`, and an upstream call that returns normally, the response body
can be an `error` object — neither a `tracks` array nor a `message`
string — when a returned track's album has a present-but-empty `images`
list, because the local formatting raises `IndexError` inside the `try`. -/
theorem C6_body_neither_tracks_nor_message :
    (search_song { sp := some () } (some "hello world")
      (.ok { tracks := some { items := some [
        { name := some "Track A", artists := some [],
          album := some { name := none, images := some [] },
          uri := none, external_urls := none }] } })).resp =
      { status := 500,
        body := .error "An unexpected error occurred: list index out of range" } := rfl

/-- C7: the mapping loop is order-preserving.  When formatting succeeds,
the local list has the same length as the upstream items list, the entry
at every index is the formatted image of the upstream item at that same
index, and each formatted entry's `artists` list is the index-preserving
map of the upstream track's artists. -/
theorem C7_order_preserving (items : List TrackIn) (fts : List TrackOut)
    (h : formatLoop items [] = .ok fts) :
    fts.length = items.length ∧
    (∀ i : Nat,
      fts[i]? = (items[i]?).bind (fun t => (formatTrack t).toOption)) ∧
    (∀ t : TrackIn, ∀ ft : TrackOut, formatTrack t = .ok ft →
      ft.artists = (t.artists.getD []).map (fun a => a.name)) := by
  have hall : formatAll items = .ok fts := by
    rw [formatLoop_eq_formatAll] at h
    cases hfa : formatAll items with
    | error e => rw [hfa] at h; cases h
    | ok l =>
        rw [hfa] at h
        simpa [Except.map] using h
  refine ⟨formatAll_ok_length hall, fun i => formatAll_ok_get hall i, ?_⟩
  intro t ft hft
  unfold formatTrack at hft
  cases hc : coverImage t with
  | error e => rw [hc] at hft; cases hft
  | ok c => rw [hc] at hft; cases hft; rfl

/-- A concrete two-item upstream list for exercising the mapping loop. -/
def sampleItems : List TrackIn :=
  [ { name := some "A",
      artists := some [{ name := some "X" }, { name := some "Y" }],
      album := some { name := some "AlbA", images := some [{ url := some "ua" }] },
      uri := some "uriA", external_urls := some { spotify := some "wa" } },
    { name := some "B", artists := some [{ name := some "Z" }],
      album := none, uri := none, external_urls := none } ]

/-- The formatted output for `sampleItems`. -/
def sampleFts : List TrackOut :=
  [ { name := some "A", artists := [some "X", some "Y"], album := some "AlbA",
      uri := some "uriA", external_urls := some "wa", cover_image := some "ua" },
    { name := some "B", artists := [some "Z"], album := none,
      uri := none, external_urls := none, cover_image := none } ]

/-- Witness for C7_order_preserving on a concrete two-item list. -/
theorem C7_order_preserving_witness :
    formatLoop sampleItems [] = .ok sampleFts ∧
    (sampleFts.length = sampleItems.length ∧
     (∀ i : Nat,
       sampleFts[i]? = (sampleItems[i]?).bind (fun t => (formatTrack t).toOption)) ∧
     (∀ t : TrackIn, ∀ ft : TrackOut, formatTrack t = .ok ft →
       ft.artists = (t.artists.getD []).map (fun a => a.name))) :=
  ⟨rfl, C7_order_preserving sampleItems sampleFts rfl⟩

/-- C8: with an initialized client and a non-empty query, a raised
`SpotifyException` with message `m` yields status 500 and body
`Spotify API error: m` (with no log line), and any other raised exception
with message `m` yields status 500, body
`An unexpected error occurred: m`, and that same line logged server-side. -/
theorem C8_exception_responses (st : ServerState) (q : String) (m : String)
    (hsp : st.sp ≠ none) (hq : q ≠ "") :
    ((search_song st (some q) (.spotifyExc m)).resp =
        { status := 500, body := .error ("Spotify API error: " ++ m) } ∧
      (search_song st (some q) (.spotifyExc m)).log = none) ∧
    ((search_song st (some q) (.otherExc m)).resp =
        { status := 500,
          body := .error ("An unexpected error occurred: " ++ m) } ∧
      (search_song st (some q) (.otherExc m)).log =
        some ("An unexpected error occurred: " ++ m)) := by
  obtain ⟨sp⟩ := st
  cases sp with
  | none => exact absurd rfl hsp
  | some u => refine ⟨⟨?_, ?_⟩, ?_, ?_⟩ <;> simp [search_song, hq]

/-- Witness for C8_exception_responses at a concrete state, query and
message. -/
theorem C8_exception_responses_witness :
    ({ sp := some () } : ServerState).sp ≠ none ∧ ("tune" : String) ≠ "" ∧
    (((search_song { sp := some () } (some "tune") (.spotifyExc "boom")).resp =
        { status := 500, body := .error ("Spotify API error: " ++ "boom") } ∧
      (search_song { sp := some () } (some "tune") (.spotifyExc "boom")).log =
        none) ∧
     ((search_song { sp := some () } (some "tune") (.otherExc "boom")).resp =
        { status := 500,
          body := .error ("An unexpected error occurred: " ++ "boom") } ∧
      (search_song { sp := some () } (some "tune") (.otherExc "boom")).log =
        some ("An unexpected error occurred: " ++ "boom"))) :=
  ⟨by decide, by decide,
   C8_exception_responses { sp := some () } "tune" "boom"
     (by decide) (by decide)⟩

/-- C9: the per-track mapping is total on tracks with absent keys.  For
any track whose effective album `images` key is absent (album missing, or
album present without `images`), formatting succeeds without raising:
a missing `name`, `uri`, `album` or `external_urls` key passes through as
`None`, a missing `artists` key becomes the empty list, and the missing
`images` key makes `cover_image` `None` via the `[{}]` default. -/
theorem C9_missing_fields_total (t : TrackIn)
    (h : (t.album.getD emptyAlbum).images = none) :
    formatTrack t = .ok
      { name := t.name,
        artists := (t.artists.getD []).map (fun a => a.name),
        album := (t.album.getD emptyAlbum).name,
        uri := t.uri,
        external_urls := (t.external_urls.getD emptyExternalUrls).spotify,
        cover_image := none } := by
  unfold formatTrack coverImage
  rw [h]
  rfl

/-- A track dict with every key the handler reads absent. -/
def missingTrack : TrackIn :=
  { name := none, artists := none, album := none, uri := none,
    external_urls := none }

/-- Witness for C9_missing_fields_total on a track with all keys absent. -/
theorem C9_missing_fields_total_witness :
    (missingTrack.album.getD emptyAlbum).images = none ∧
    formatTrack missingTrack = .ok
      { name := missingTrack.name,
        artists := (missingTrack.artists.getD []).map (fun a => a.name),
        album := (missingTrack.album.getD emptyAlbum).name,
        uri := missingTrack.uri,
        external_urls := (missingTrack.external_urls.getD emptyExternalUrls).spotify,
        cover_image := none } :=
  ⟨rfl, C9_missing_fields_total missingTrack rfl⟩

/-- C10: the handler is deterministic — equal client state, equal query
and equal upstream outcome give identical results (response, log and
state) — and handling a request leaves the process-wide state, in
particular the client handle `sp`, unchanged. -/
theorem C10_deterministic_no_mutation (st1 st2 : ServerState)
    (q1 q2 : Option String) (u1 u2 : Upstream)
    (hs : st1 = st2) (hq : q1 = q2) (hu : u1 = u2) :
    search_song st1 q1 u1 = search_song st2 q2 u2 ∧
    (search_song st1 q1 u1).stAfter = st1 := by
  subst hs; subst hq; subst hu
  exact ⟨rfl, search_song_stAfter st1 q1 u1⟩

/-- Witness for C10_deterministic_no_mutation at a concrete request. -/
theorem C10_deterministic_no_mutation_witness :
    ({ sp := some () } : ServerState) = { sp := some () } ∧
    (some "q" : Option String) = some "q" ∧
    ((.ok { tracks := none } : Upstream) = .ok { tracks := none }) ∧
    (search_song { sp := some () } (some "q") (.ok { tracks := none }) =
       search_song { sp := some () } (some "q") (.ok { tracks := none }) ∧
     (search_song { sp := some () } (some "q")
        (.ok { tracks := none })).stAfter = { sp := some () }) :=
  ⟨rfl, rfl, rfl,
   C10_deterministic_no_mutation { sp := some () } { sp := some () }
     (some "q") (some "q") (.ok { tracks := none }) (.ok { tracks := none })
     rfl rfl rfl⟩

end SpApi
